import Mathlib

/-!
Verification of the resilience and traffic-control core of the fizzbuzz service:
the circuit breaker (internal/data circuit breaker file), the degraded cache and
the circuit-breaker repository (internal/data/statistics.go), and the per-IP
token-bucket rate limiter with its background eviction loop (cmd/api/middleware.go
and the server main file).

Times and durations are modelled as Int nanoseconds (Go time.Time / time.Duration);
Go int counters are modelled as Int; Go pointers are modelled as Option;
a Go function field that may be nil is modelled as a configured-flag plus a
per-call prospective outcome supplied as input.
-/

deriving instance DecidableEq for Except

namespace FizzBuzz

/-! ## Circuit breaker state machine -/

/-- CircuitBreakerState: closed, open, half-open (source constants CircuitClosed,
CircuitOpen, CircuitHalfOpen). -/
inductive CircuitBreakerState where
  | CircuitClosed
  | CircuitOpen
  | CircuitHalfOpen
deriving DecidableEq

/-- CircuitBreakerConfig: FailureThreshold, RecoveryTimeout, SuccessThreshold,
Timeout (durations in nanoseconds). -/
structure CircuitBreakerConfig where
  FailureThreshold : Int
  RecoveryTimeout : Int
  SuccessThreshold : Int
  Timeout : Int
deriving DecidableEq

/-- DefaultCircuitBreakerConfig: 5 failures, 30s recovery, 3 successes, 5s timeout. -/
def DefaultCircuitBreakerConfig : CircuitBreakerConfig :=
  { FailureThreshold := 5
    RecoveryTimeout := 30000000000
    SuccessThreshold := 3
    Timeout := 5000000000 }

/-- CircuitBreaker state: config, state, counters, last failure time, and whether
a fallback function / health checker has been configured (the Go struct holds the
closures themselves; their per-call outcomes are supplied as call inputs). -/
structure CircuitBreaker where
  config : CircuitBreakerConfig
  state : CircuitBreakerState
  failures : Int
  successes : Int
  lastFailTime : Int
  hasFallback : Bool
  hasHealthChecker : Bool
deriving DecidableEq

/-- NewCircuitBreaker: starts closed with zeroed counters and no hooks configured. -/
def NewCircuitBreaker (config : CircuitBreakerConfig) : CircuitBreaker :=
  { config := config
    state := .CircuitClosed
    failures := 0
    successes := 0
    lastFailTime := 0
    hasFallback := false
    hasHealthChecker := false }

/-- Errors returned by Call (source sentinel errors and wrappers); `underlying`
is an error returned by the wrapped operation itself. -/
inductive CBErr (ε : Type) where
  | underlying (e : ε)
  | circuitBreakerOpen
  | circuitBreakerOpenWithFallback
  | circuitBreakerOpenWithFallbackError (e : ε)
  | circuitBreakerTransitioning
deriving DecidableEq

/-- One call to Call: the time.Now value, the outcome the wrapped operation would
produce if invoked, the outcome the fallback function would produce if invoked,
and whether the health checker would return nil. -/
structure CallInput (α ε : Type) where
  now : Int
  fnOutcome : Except ε α
  fallbackOutcome : Except ε α
  healthOk : Bool
deriving DecidableEq

/-- Result of Call: the updated breaker, the returned (value, error) pair exactly
as the Go pair (interface value, error), and whether the wrapped operation was
actually invoked. -/
structure CallResult (α ε : Type) where
  breaker : CircuitBreaker
  value : Option α
  error : Option (CBErr ε)
  invoked : Bool
deriving DecidableEq

/-- recordFailure: increment failures, reset successes, record the failure time;
open when failures has reached FailureThreshold. -/
def recordFailure (cb : CircuitBreaker) (now : Int) : CircuitBreaker :=
  let cb2 : CircuitBreaker :=
    { cb with failures := cb.failures + 1, successes := 0, lastFailTime := now }
  if cb2.config.FailureThreshold ≤ cb2.failures then
    { cb2 with state := .CircuitOpen }
  else
    cb2

/-- recordSuccess: increment successes, reset failures. -/
def recordSuccess (cb : CircuitBreaker) : CircuitBreaker :=
  { cb with successes := cb.successes + 1, failures := 0 }

/-- transitionToHalfOpen: state to half-open, reset successes. -/
def transitionToHalfOpen (cb : CircuitBreaker) : CircuitBreaker :=
  { cb with state := .CircuitHalfOpen, successes := 0 }

/-- transitionToClosed: state to closed, reset both counters. -/
def transitionToClosed (cb : CircuitBreaker) : CircuitBreaker :=
  { cb with state := .CircuitClosed, failures := 0, successes := 0 }

/-- callClosed: invoke the operation; failure records a failure and returns the
error, success records a success and returns the result. -/
def callClosed {α ε : Type} (cb : CircuitBreaker) (i : CallInput α ε) : CallResult α ε :=
  match i.fnOutcome with
  | .error e =>
      { breaker := recordFailure cb i.now, value := none
        error := some (.underlying e), invoked := true }
  | .ok v =>
      { breaker := recordSuccess cb, value := some v, error := none, invoked := true }

/-- The fallback tail of callOpen: if a fallback is configured, return its result
with the fallback-used sentinel (or wrap its error); otherwise the open error.
The wrapped operation is never invoked here. -/
def callOpenFallback {α ε : Type} (cb : CircuitBreaker) (i : CallInput α ε) : CallResult α ε :=
  if cb.hasFallback then
    match i.fallbackOutcome with
    | .error e =>
        { breaker := cb, value := none
          error := some (.circuitBreakerOpenWithFallbackError e), invoked := false }
    | .ok v =>
        { breaker := cb, value := some v
          error := some .circuitBreakerOpenWithFallback, invoked := false }
  else
    { breaker := cb, value := none, error := some .circuitBreakerOpen, invoked := false }

/-- callOpen: if the recovery timeout has elapsed since the last failure,
transition to half-open and, when a health checker is configured and passes,
return the transitioning sentinel; in every other case fall through to the
fallback tail (with the possibly half-open breaker). -/
def callOpen {α ε : Type} (cb : CircuitBreaker) (i : CallInput α ε) : CallResult α ε :=
  let shouldTryRecovery := cb.config.RecoveryTimeout ≤ i.now - cb.lastFailTime
  if shouldTryRecovery then
    let cb2 := transitionToHalfOpen cb
    if cb.hasHealthChecker && i.healthOk then
      { breaker := cb2, value := none
        error := some .circuitBreakerTransitioning, invoked := false }
    else
      callOpenFallback cb2 i
  else
    callOpenFallback cb i

/-- callHalfOpen: invoke the operation; failure records a failure, success
records a success and closes when successes has reached SuccessThreshold. -/
def callHalfOpen {α ε : Type} (cb : CircuitBreaker) (i : CallInput α ε) : CallResult α ε :=
  match i.fnOutcome with
  | .error e =>
      { breaker := recordFailure cb i.now, value := none
        error := some (.underlying e), invoked := true }
  | .ok v =>
      let cb2 := recordSuccess cb
      let cb3 :=
        if cb2.config.SuccessThreshold ≤ cb2.successes then transitionToClosed cb2 else cb2
      { breaker := cb3, value := some v, error := none, invoked := true }

/-- Call: dispatch on the current state. -/
def Call {α ε : Type} (cb : CircuitBreaker) (i : CallInput α ε) : CallResult α ε :=
  match cb.state with
  | .CircuitClosed => callClosed cb i
  | .CircuitOpen => callOpen cb i
  | .CircuitHalfOpen => callHalfOpen cb i

/-- Run a sequence of calls, threading the breaker state. -/
def runTrace {α ε : Type} (cb : CircuitBreaker) : List (CallInput α ε) → CircuitBreaker
  | [] => cb
  | i :: rest => runTrace (Call cb i).breaker rest

/-- Whether a call input makes the wrapped operation fail. -/
def isFail {α ε : Type} (i : CallInput α ε) : Bool :=
  match i.fnOutcome with
  | .error _ => true
  | .ok _ => false

/-- Largest consecutive-failure count ever attained while scanning the
success/failure flags left to right, starting from a current count of `f`
(a `true` flag is a failure and increments the count, a success resets it). -/
def maxRunFrom (f : Int) : List Bool → Int
  | [] => f
  | b :: rest =>
      let f2 := if b then f + 1 else 0
      max f2 (maxRunFrom f2 rest)

theorem maxRunFrom_cons (f : Int) (b : Bool) (rest : List Bool) :
    maxRunFrom f (b :: rest) =
      max (if b then f + 1 else 0) (maxRunFrom (if b then f + 1 else 0) rest) := rfl

theorem recordFailure_eq (cb : CircuitBreaker) (now : Int) :
    recordFailure cb now =
      if cb.config.FailureThreshold ≤ cb.failures + 1 then
        { cb with
            failures := cb.failures + 1
            successes := 0
            lastFailTime := now
            state := .CircuitOpen }
      else
        { cb with
            failures := cb.failures + 1
            successes := 0
            lastFailTime := now } := rfl

theorem callOpen_eq {α ε : Type} (cb : CircuitBreaker) (i : CallInput α ε) :
    callOpen cb i =
      if cb.config.RecoveryTimeout ≤ i.now - cb.lastFailTime then
        (if cb.hasHealthChecker && i.healthOk then
          { breaker := transitionToHalfOpen cb
            value := none
            error := some .circuitBreakerTransitioning
            invoked := false }
        else callOpenFallback (transitionToHalfOpen cb) i)
      else callOpenFallback cb i := rfl

theorem callOpenFallback_breaker {α ε : Type} (cb : CircuitBreaker) (i : CallInput α ε) :
    (callOpenFallback cb i).breaker = cb := by
  unfold callOpenFallback
  cases hf : cb.hasFallback
  · simp [hf]
  · cases i.fallbackOutcome <;> simp [hf]

/-- A call in the open state with recovery timeout not yet elapsed leaves the
breaker completely unchanged. -/
theorem callOpen_stuck {α ε : Type} (cb : CircuitBreaker) (i : CallInput α ε)
    (h : i.now - cb.lastFailTime < cb.config.RecoveryTimeout) :
    (callOpen cb i).breaker = cb := by
  rw [callOpen_eq, if_neg (not_le.mpr h)]
  exact callOpenFallback_breaker cb i

/-- While open with last failure at time 0, a trace of calls all at time 0
(with positive recovery timeout) changes nothing. -/
theorem runTrace_open_stuck {α ε : Type} (is : List (CallInput α ε)) :
    ∀ cb : CircuitBreaker, cb.state = .CircuitOpen → cb.lastFailTime = 0 →
      1 ≤ cb.config.RecoveryTimeout → (∀ i ∈ is, i.now = 0) →
      runTrace cb is = cb := by
  induction is with
  | nil => intro cb _ _ _ _; rfl
  | cons i rest ih =>
      intro cb hs hlf hrt hnow
      have hbr : (Call cb i).breaker = cb := by
        rw [Call, hs]
        refine callOpen_stuck cb i ?_
        rw [hlf, hnow i (List.mem_cons_self i rest)]
        omega
      rw [runTrace, hbr]
      exact ih cb hs hlf hrt fun j hj => hnow j (List.mem_cons_of_mem i hj)

/-- Core invariant-style lemma for C1: from a closed breaker whose current
consecutive-failure count is below the threshold, with all calls at time 0,
the final state is open exactly when some consecutive-failure run reaches the
threshold. -/
theorem runTrace_closed_open_iff {α ε : Type} (config : CircuitBreakerConfig)
    (hft : 1 ≤ config.FailureThreshold) (hrt : 1 ≤ config.RecoveryTimeout)
    (is : List (CallInput α ε)) :
    (∀ i ∈ is, i.now = 0) →
    ∀ cb : CircuitBreaker, cb.config = config → cb.state = .CircuitClosed →
      cb.failures < config.FailureThreshold →
      ((runTrace cb is).state = .CircuitOpen ↔
        config.FailureThreshold ≤ maxRunFrom cb.failures (is.map isFail)) := by
  induction is with
  | nil =>
      intro _ cb hcfg hs hlt
      constructor
      · intro h; rw [runTrace] at h; rw [hs] at h; exact absurd h (by simp)
      · intro h; exact absurd h (by simp [maxRunFrom]; omega)
  | cons i rest ih =>
      intro hnow cb hcfg hs hlt
      have hnow0 : i.now = 0 := hnow i (List.mem_cons_self i rest)
      have hnrest : ∀ j ∈ rest, j.now = 0 := fun j hj => hnow j (List.mem_cons_of_mem i hj)
      rw [runTrace, Call, hs]
      cases hfn : i.fnOutcome with
      | ok v =>
          have hflag : isFail i = false := by simp [isFail, hfn]
          rw [List.map_cons, hflag, maxRunFrom_cons]
          simp only [Bool.false_eq_true, if_false]
          have hb : (callClosed cb i).breaker = recordSuccess cb := by
            unfold callClosed; rw [hfn]
          rw [hb]
          have := ih hnrest (recordSuccess cb) (by simpa [recordSuccess] using hcfg)
            (by simp [recordSuccess, hs]) (by simp [recordSuccess]; omega)
          rw [show (recordSuccess cb).failures = 0 from rfl] at this
          rw [this]
          constructor
          · intro h; exact le_max_of_le_right h
          · intro h
            rcases le_max_iff.mp h with h0 | h1
            · omega
            · exact h1
      | error e =>
          have hflag : isFail i = true := by simp [isFail, hfn]
          rw [List.map_cons, hflag, maxRunFrom_cons]
          simp only [if_true]
          have hb : (callClosed cb i).breaker = recordFailure cb i.now := by
            unfold callClosed; rw [hfn]
          rw [hb, hnow0]
          by_cases hth : config.FailureThreshold ≤ cb.failures + 1
          · rw [recordFailure_eq, if_pos (by rw [hcfg]; exact hth)]
            rw [runTrace_open_stuck rest _ rfl rfl (by simpa [hcfg] using hrt) hnrest]
            constructor
            · intro _; exact le_max_of_le_left hth
            · intro _; rfl
          · rw [recordFailure_eq, if_neg (by rw [hcfg]; exact hth)]
            have := ih hnrest
              { cb with failures := cb.failures + 1, successes := 0, lastFailTime := 0 }
              (by simpa using hcfg) (by simpa using hs) (by simp; omega)
            simp only at this
            rw [this]
            constructor
            · intro h; exact le_max_of_le_right h
            · intro h
              rcases le_max_iff.mp h with h0 | h1
              · omega
              · exact h1

/-- Claim C1: for every (positive) configuration and every sequence of calls,
the circuit breaker transitions from Closed to Open exactly when the count of
consecutive failures reaches FailureThreshold, and never on any earlier failure.
Part one characterises the single transition step from any closed breaker;
part two characterises a whole trace of calls (all at time 0, so that no
recovery attempt interleaves) started from a fresh breaker. -/
theorem C1_closed_to_open_at_threshold {α ε : Type} (config : CircuitBreakerConfig)
    (hft : 1 ≤ config.FailureThreshold) (hrt : 1 ≤ config.RecoveryTimeout) :
    (∀ (cb : CircuitBreaker) (i : CallInput α ε), cb.state = .CircuitClosed →
      ((Call cb i).breaker.state = .CircuitOpen ↔
        isFail i = true ∧ cb.config.FailureThreshold ≤ cb.failures + 1)) ∧
    (∀ is : List (CallInput α ε), (∀ i ∈ is, i.now = 0) →
      ((runTrace (NewCircuitBreaker config) is).state = .CircuitOpen ↔
        config.FailureThreshold ≤ maxRunFrom 0 (is.map isFail))) := by
  constructor
  · intro cb i hs
    rw [Call, hs]
    cases hfn : i.fnOutcome with
    | ok v =>
        have hb : (callClosed cb i).breaker = recordSuccess cb := by
          unfold callClosed; rw [hfn]
        rw [hb]
        simp [recordSuccess, hs, isFail, hfn]
    | error e =>
        have hb : (callClosed cb i).breaker = recordFailure cb i.now := by
          unfold callClosed; rw [hfn]
        rw [hb, recordFailure_eq]
        by_cases hth : cb.config.FailureThreshold ≤ cb.failures + 1
        · rw [if_pos hth]
          simp [isFail, hfn, hth]
        · rw [if_neg hth]
          simp [hs, isFail, hfn, hth]
  · intro is hnow
    exact runTrace_closed_open_iff config hft hrt is hnow (NewCircuitBreaker config)
      rfl rfl (by simp [NewCircuitBreaker]; omega)

/-- Witness for C1 at the default configuration: five consecutive failing calls
at time 0 open a fresh breaker, and the consecutive-failure count indeed
reaches the threshold there. -/
theorem C1_witness :
    (runTrace (NewCircuitBreaker DefaultCircuitBreakerConfig)
        (List.replicate 5
          ({ now := 0, fnOutcome := .error (), fallbackOutcome := .ok (),
             healthOk := false } : CallInput Unit Unit))).state = .CircuitOpen := by
  have h := (C1_closed_to_open_at_threshold (α := Unit) (ε := Unit)
    DefaultCircuitBreakerConfig (by decide) (by decide)).2
    (List.replicate 5
      ({ now := 0, fnOutcome := .error (), fallbackOutcome := .ok (),
         healthOk := false } : CallInput Unit Unit)) (by decide)
  exact h.mpr (by decide)

/-! ## Half-open behaviour (claim C2) -/

/-- In the closed state, calls whose wrapped operation succeeds keep the
breaker closed. -/
theorem runTrace_closed_success {α ε : Type} (is : List (CallInput α ε)) :
    (∀ i ∈ is, isFail i = false) →
    ∀ cb : CircuitBreaker, cb.state = .CircuitClosed →
      (runTrace cb is).state = .CircuitClosed := by
  induction is with
  | nil => intro _ cb hs; exact hs
  | cons i rest ih =>
      intro hok cb hs
      have h0 : isFail i = false := hok i (List.mem_cons_self i rest)
      rw [runTrace, Call, hs]
      cases hfn : i.fnOutcome with
      | ok v =>
          have hb : (callClosed cb i).breaker = recordSuccess cb := by
            unfold callClosed; rw [hfn]
          rw [hb]
          exact ih (fun j hj => hok j (List.mem_cons_of_mem i hj)) _ (by simp [recordSuccess, hs])
      | error e => exact absurd h0 (by simp [isFail, hfn])

/-- From a half-open breaker with current success count below the threshold,
a run of calls whose wrapped operation always succeeds ends closed exactly
when the number of successes brings the counter to the threshold. -/
theorem runTrace_halfOpen_success {α ε : Type} (config : CircuitBreakerConfig)
    (is : List (CallInput α ε)) :
    (∀ i ∈ is, isFail i = false) →
    ∀ cb : CircuitBreaker, cb.config = config → cb.state = .CircuitHalfOpen →
      cb.successes < config.SuccessThreshold →
      ((runTrace cb is).state = .CircuitClosed ↔
        config.SuccessThreshold ≤ cb.successes + is.length) := by
  induction is with
  | nil =>
      intro _ cb _ hs hlt
      constructor
      · intro h; rw [runTrace] at h; rw [hs] at h; exact absurd h (by simp)
      · intro h; exact absurd h (by simp; omega)
  | cons i rest ih =>
      intro hok cb hcfg hs hlt
      have h0 : isFail i = false := hok i (List.mem_cons_self i rest)
      have hrest : ∀ j ∈ rest, isFail j = false := fun j hj => hok j (List.mem_cons_of_mem i hj)
      rw [runTrace, Call, hs]
      cases hfn : i.fnOutcome with
      | error e => exact absurd h0 (by simp [isFail, hfn])
      | ok v =>
          have hb : (callHalfOpen cb i).breaker =
              (if (recordSuccess cb).config.SuccessThreshold ≤ (recordSuccess cb).successes then
                transitionToClosed (recordSuccess cb) else recordSuccess cb) := by
            unfold callHalfOpen; rw [hfn]
          rw [hb]
          by_cases hth : config.SuccessThreshold ≤ cb.successes + 1
          · rw [if_pos (by simp [recordSuccess, hcfg]; omega)]
            rw [runTrace_closed_success rest hrest _ (by simp [transitionToClosed])]
            simp only [List.length_cons]
            push_cast
            constructor
            · intro _; omega
            · intro _; trivial
          · rw [if_neg (by simp [recordSuccess, hcfg]; omega)]
            have := ih hrest (recordSuccess cb) (by simp [recordSuccess, hcfg])
              (by simp [recordSuccess, hs]) (by simp [recordSuccess]; omega)
            rw [this]
            simp only [recordSuccess, List.length_cons]
            push_cast
            omega

/-- Claim C2, amended.  Part one: from the moment the breaker enters HalfOpen
(the Open→HalfOpen transition resets the success counter to zero), a run of
successful calls closes the circuit exactly when SuccessThreshold consecutive
successes have occurred.  Part two: a failing call while HalfOpen resets the
success counter and records the failure time, but reopens the circuit only
when the incremented failure counter has reached FailureThreshold (the failure
counter is not reset on the Open→HalfOpen transition, so the first failure
before any success does reopen, while a failure after a success generally
leaves the breaker HalfOpen). -/
theorem C2_halfOpen_amended {α ε : Type} :
    (∀ config : CircuitBreakerConfig, ∀ cb : CircuitBreaker,
      ∀ is : List (CallInput α ε), (∀ i ∈ is, isFail i = false) →
      cb.config = config → cb.state = .CircuitHalfOpen → cb.successes = 0 →
      1 ≤ config.SuccessThreshold →
      ((runTrace cb is).state = .CircuitClosed ↔ config.SuccessThreshold ≤ is.length)) ∧
    (∀ (cb : CircuitBreaker) (i : CallInput α ε) (e : ε),
      cb.state = .CircuitHalfOpen → i.fnOutcome = .error e →
      (Call cb i).breaker.successes = 0 ∧
      (Call cb i).breaker.lastFailTime = i.now ∧
      (Call cb i).breaker.failures = cb.failures + 1 ∧
      ((Call cb i).breaker.state = .CircuitOpen ↔
        cb.config.FailureThreshold ≤ cb.failures + 1) ∧
      ((Call cb i).breaker.state = .CircuitOpen ∨
        (Call cb i).breaker.state = .CircuitHalfOpen)) := by
  constructor
  · intro config cb is hok hcfg hs hsucc hst
    have := runTrace_halfOpen_success config is hok cb hcfg hs (by omega)
    rw [this, hsucc]
    omega
  · intro cb i e hs hfn
    have hb : (Call cb i).breaker = recordFailure cb i.now := by
      rw [Call, hs]; unfold callHalfOpen; rw [hfn]
    rw [hb, recordFailure_eq]
    by_cases hth : cb.config.FailureThreshold ≤ cb.failures + 1
    · rw [if_pos hth]
      simp [hth]
    · rw [if_neg hth]
      simp [hs, hth]

/-- The concrete trace refuting claim C2 as stated: five failures open the
default breaker, a call after the recovery timeout moves it to HalfOpen, one
successful call resets the failure counter. -/
def c2Trace : List (CallInput Unit Unit) :=
  [{ now := 0, fnOutcome := .error (), fallbackOutcome := .ok (), healthOk := false },
   { now := 0, fnOutcome := .error (), fallbackOutcome := .ok (), healthOk := false },
   { now := 0, fnOutcome := .error (), fallbackOutcome := .ok (), healthOk := false },
   { now := 0, fnOutcome := .error (), fallbackOutcome := .ok (), healthOk := false },
   { now := 0, fnOutcome := .error (), fallbackOutcome := .ok (), healthOk := false },
   { now := 30000000000, fnOutcome := .ok (), fallbackOutcome := .ok (), healthOk := false },
   { now := 30000000000, fnOutcome := .ok (), fallbackOutcome := .ok (), healthOk := false }]

/-- Counterexample to claim C2 as stated: with the default configuration the
breaker below is HalfOpen, yet the next failing call leaves it HalfOpen
instead of immediately reopening the circuit (its failure counter, reset by
the preceding success, is far below FailureThreshold). -/
theorem C2_counterexample :
    (runTrace (NewCircuitBreaker DefaultCircuitBreakerConfig) c2Trace).state =
      .CircuitHalfOpen ∧
    (Call (runTrace (NewCircuitBreaker DefaultCircuitBreakerConfig) c2Trace)
        ({ now := 30000000000, fnOutcome := .error (), fallbackOutcome := .ok (),
           healthOk := false } : CallInput Unit Unit)).breaker.state =
      .CircuitHalfOpen := by decide

/-- A half-open breaker with a fresh success counter, for the C2 witness. -/
def c2HalfOpenBreaker : CircuitBreaker :=
  { config := DefaultCircuitBreakerConfig, state := .CircuitHalfOpen, failures := 0,
    successes := 0, lastFailTime := 0, hasFallback := false, hasHealthChecker := false }

/-- Three calls whose wrapped operation succeeds, for the C2 witness. -/
def c2SuccessInputs : List (CallInput Unit Unit) :=
  List.replicate 3
    { now := 0, fnOutcome := .ok (), fallbackOutcome := .ok (), healthOk := false }

/-- Witness for C2_halfOpen_amended: three consecutive successes close the
default breaker from HalfOpen, and a failing call in HalfOpen with failure
counter 0 stays HalfOpen. -/
theorem C2_witness :
    (runTrace c2HalfOpenBreaker c2SuccessInputs).state = .CircuitClosed ∧
    (Call { c2HalfOpenBreaker with successes := 1 }
        ({ now := 7, fnOutcome := .error (), fallbackOutcome := .ok (),
           healthOk := false } : CallInput Unit Unit)).breaker.state =
      .CircuitHalfOpen := by
  constructor
  · exact ((C2_halfOpen_amended (α := Unit) (ε := Unit)).1 DefaultCircuitBreakerConfig
      c2HalfOpenBreaker c2SuccessInputs (by decide) rfl rfl rfl (by decide)).mpr (by decide)
  · have h := (C2_halfOpen_amended (α := Unit) (ε := Unit)).2
      { c2HalfOpenBreaker with successes := 1 }
      ({ now := 7, fnOutcome := .error (), fallbackOutcome := .ok (),
         healthOk := false } : CallInput Unit Unit) () rfl rfl
    rcases h.2.2.2.2 with h1 | h1
    · exact absurd (h.2.2.2.1.mp h1) (by decide)
    · exact h1

/-! ## Open-state behaviour before recovery (claim C3) -/

/-- Claim C3: while Open with elapsed time below RecoveryTimeout, the wrapped
operation is never invoked; without a fallback the circuit-open error is
returned, with a fallback the fallback result is returned together with the
fallback-used sentinel. -/
theorem C3_open_never_invokes {α ε : Type} (cb : CircuitBreaker) (i : CallInput α ε)
    (hs : cb.state = .CircuitOpen)
    (ht : i.now - cb.lastFailTime < cb.config.RecoveryTimeout) :
    (Call cb i).invoked = false ∧
    (cb.hasFallback = false →
      (Call cb i).value = none ∧ (Call cb i).error = some .circuitBreakerOpen) ∧
    (∀ v, cb.hasFallback = true → i.fallbackOutcome = .ok v →
      (Call cb i).value = some v ∧
      (Call cb i).error = some .circuitBreakerOpenWithFallback) := by
  rw [Call, hs, callOpen_eq, if_neg (not_le.mpr ht)]
  unfold callOpenFallback
  refine ⟨?_, ?_, ?_⟩
  · cases hf : cb.hasFallback
    · simp [hf]
    · cases i.fallbackOutcome <;> simp [hf]
  · intro hf; simp [hf]
  · intro v hf hfo; simp [hf, hfo]

/-- Witness for C3: an open breaker with a configured fallback, queried before
the recovery timeout, does not invoke the operation and returns the fallback
value with the fallback-used sentinel. -/
theorem C3_witness :
    (Call
        ({ config := DefaultCircuitBreakerConfig, state := .CircuitOpen, failures := 5,
           successes := 0, lastFailTime := 0, hasFallback := true,
           hasHealthChecker := false } : CircuitBreaker)
        ({ now := 1000, fnOutcome := .error (), fallbackOutcome := .ok (),
           healthOk := false } : CallInput Unit Unit)).invoked = false ∧
    (Call
        ({ config := DefaultCircuitBreakerConfig, state := .CircuitOpen, failures := 5,
           successes := 0, lastFailTime := 0, hasFallback := true,
           hasHealthChecker := false } : CircuitBreaker)
        ({ now := 1000, fnOutcome := .error (), fallbackOutcome := .ok (),
           healthOk := false } : CallInput Unit Unit)).value = some () ∧
    (Call
        ({ config := DefaultCircuitBreakerConfig, state := .CircuitOpen, failures := 5,
           successes := 0, lastFailTime := 0, hasFallback := true,
           hasHealthChecker := false } : CircuitBreaker)
        ({ now := 1000, fnOutcome := .error (), fallbackOutcome := .ok (),
           healthOk := false } : CallInput Unit Unit)).error =
      some .circuitBreakerOpenWithFallback := by
  have h := C3_open_never_invokes
    ({ config := DefaultCircuitBreakerConfig, state := .CircuitOpen, failures := 5,
       successes := 0, lastFailTime := 0, hasFallback := true,
       hasHealthChecker := false } : CircuitBreaker)
    ({ now := 1000, fnOutcome := .error (), fallbackOutcome := .ok (),
       healthOk := false } : CallInput Unit Unit) rfl (by decide)
  exact ⟨h.1, (h.2.2 () rfl rfl).1, (h.2.2 () rfl rfl).2⟩

/-! ## Open-state recovery transition (claim C4) -/

/-- The open breaker reached by five failing calls at time 0 under the default
configuration. -/
def c4Breaker : CircuitBreaker :=
  runTrace (NewCircuitBreaker DefaultCircuitBreakerConfig)
    (List.replicate 5
      ({ now := 0, fnOutcome := .error (), fallbackOutcome := .ok (),
         healthOk := false } : CallInput Unit Unit))

/-- Counterexample to claim C4 as stated: at the recovery deadline, with no
health probe configured, the triggering call transitions the breaker to
HalfOpen but does NOT invoke the wrapped operation (it is answered with the
circuit-open error instead). -/
theorem C4_counterexample :
    c4Breaker.state = .CircuitOpen ∧
    c4Breaker.hasHealthChecker = false ∧
    c4Breaker.config.RecoveryTimeout ≤ (30000000000 : Int) - c4Breaker.lastFailTime ∧
    (Call c4Breaker
        ({ now := 30000000000, fnOutcome := .ok (), fallbackOutcome := .ok (),
           healthOk := false } : CallInput Unit Unit)).invoked = false ∧
    (Call c4Breaker
        ({ now := 30000000000, fnOutcome := .ok (), fallbackOutcome := .ok (),
           healthOk := false } : CallInput Unit Unit)).breaker.state =
      .CircuitHalfOpen ∧
    (Call c4Breaker
        ({ now := 30000000000, fnOutcome := .ok (), fallbackOutcome := .ok (),
           healthOk := false } : CallInput Unit Unit)).error =
      some .circuitBreakerOpen := by decide

/-- Claim C4, amended: when a call arrives while Open with elapsed time at
least RecoveryTimeout, the breaker does transition to HalfOpen, but the
triggering call itself never invokes the wrapped operation: it is answered
with the transitioning sentinel (configured and passing health probe), or via
the fallback, or with the circuit-open error; only subsequent calls execute
as in HalfOpen. -/
theorem C4_recovery_amended {α ε : Type} (cb : CircuitBreaker) (i : CallInput α ε)
    (hs : cb.state = .CircuitOpen)
    (ht : cb.config.RecoveryTimeout ≤ i.now - cb.lastFailTime) :
    (Call cb i).breaker.state = .CircuitHalfOpen ∧
    (Call cb i).invoked = false ∧
    (cb.hasHealthChecker = true → i.healthOk = true →
      (Call cb i).value = none ∧
      (Call cb i).error = some .circuitBreakerTransitioning) ∧
    ((cb.hasHealthChecker = false ∨ i.healthOk = false) →
      (cb.hasFallback = false →
        (Call cb i).value = none ∧ (Call cb i).error = some .circuitBreakerOpen) ∧
      (∀ v, cb.hasFallback = true → i.fallbackOutcome = .ok v →
        (Call cb i).value = some v ∧
        (Call cb i).error = some .circuitBreakerOpenWithFallback)) := by
  rw [Call, hs, callOpen_eq, if_pos ht]
  by_cases hh : cb.hasHealthChecker && i.healthOk
  · rw [if_pos hh]
    simp only [Bool.and_eq_true] at hh
    refine ⟨rfl, rfl, fun _ _ => ⟨rfl, rfl⟩, ?_⟩
    rintro (h | h)
    · rw [h] at hh; exact absurd hh.1 (by simp)
    · rw [h] at hh; exact absurd hh.2 (by simp)
  · rw [if_neg hh]
    refine ⟨?_, ?_, ?_, ?_⟩
    · rw [callOpenFallback_breaker]; rfl
    · unfold callOpenFallback
      cases hf : (transitionToHalfOpen cb).hasFallback
      · simp [hf]
      · cases i.fallbackOutcome <;> simp [hf]
    · intro h1 h2; rw [h1, h2] at hh; exact absurd rfl hh
    · intro _
      constructor
      · intro hf
        unfold callOpenFallback
        rw [show (transitionToHalfOpen cb).hasFallback = false from hf]
        exact ⟨rfl, rfl⟩
      · intro v hf hfo
        unfold callOpenFallback
        rw [show (transitionToHalfOpen cb).hasFallback = true from hf, hfo]
        exact ⟨rfl, rfl⟩

/-- Witness for C4_recovery_amended at the counterexample input. -/
theorem C4_witness :
    (Call c4Breaker
        ({ now := 30000000000, fnOutcome := .ok (), fallbackOutcome := .ok (),
           healthOk := false } : CallInput Unit Unit)).breaker.state =
      .CircuitHalfOpen ∧
    (Call c4Breaker
        ({ now := 30000000000, fnOutcome := .ok (), fallbackOutcome := .ok (),
           healthOk := false } : CallInput Unit Unit)).invoked = false := by
  have h := C4_recovery_amended c4Breaker
    ({ now := 30000000000, fnOutcome := .ok (), fallbackOutcome := .ok (),
       healthOk := false } : CallInput Unit Unit) (by decide) (by decide)
  exact ⟨h.1, h.2.1⟩

/-! ## Data model for the statistics repository (internal/data) -/

/-- FizzBuzzInput: the request parameters (Go ints and strings). -/
structure FizzBuzzInput where
  Int1 : Int
  Int2 : Int
  Limit : Int
  Str1 : String
  Str2 : String
deriving DecidableEq

/-- StatisticsEntry: a tracked parameter combination (times as Int nanoseconds). -/
structure StatisticsEntry where
  ID : Int
  ParametersHash : String
  Parameters : FizzBuzzInput
  Hits : Int
  CreatedAt : Int
  UpdatedAt : Int
deriving DecidableEq

/-- StatsSummary: aggregate statistics (the float64 average as an exact rational,
the two optional times as Option Int). -/
structure StatsSummary where
  TotalUniqueRequests : Int
  TotalRequests : Int
  AvgHitsPerUniqueRequest : ℚ
  MaxHits : Int
  FirstRequestTime : Option Int
  LastRequestTime : Option Int
deriving DecidableEq

/-- PoolStats: connection pool statistics. -/
structure PoolStats where
  TotalConnections : Int
  IdleConnections : Int
  ActiveConnections : Int
  ConstructingConnections : Int
  MaxConnections : Int
  AcquireCount : Int
  AverageAcquireDurationMs : ℚ
  Status : String
  CollectedAt : Int
deriving DecidableEq

/-! ## Degraded cache (cacheLayer in internal/data/statistics.go) -/

/-- cacheLayer: the last known-good most-frequent entry (a possibly-nil Go
pointer, hence Option), its refresh time, the TTL, and the fixed fallback
summaries. -/
structure CacheLayer where
  mostFrequent : Option StatisticsEntry
  lastRefresh : Int
  cacheTTL : Int
  fallbackStats : StatsSummary
  fallbackPoolStats : PoolStats
deriving DecidableEq

/-- updateMostFrequent: store the entry (pointer) and the current time. -/
def updateMostFrequent (c : CacheLayer) (entry : Option StatisticsEntry) (now : Int) :
    CacheLayer :=
  { c with mostFrequent := entry, lastRefresh := now }

/-- getMostFrequentCached: return the stored pointer unless the elapsed time
since the last refresh strictly exceeds the TTL. -/
def getMostFrequentCached (c : CacheLayer) (now : Int) : Option StatisticsEntry :=
  if c.cacheTTL < now - c.lastRefresh then none else c.mostFrequent

/-- getFallbackStats: the fixed placeholder summary. -/
def getFallbackStats (c : CacheLayer) : StatsSummary := c.fallbackStats

/-- getFallbackPoolStats: the placeholder pool summary restamped with the
current time. -/
def getFallbackPoolStats (c : CacheLayer) (now : Int) : PoolStats :=
  { c.fallbackPoolStats with CollectedAt := now }

/-- The cache TTL set by NewCircuitBreakerRepository: 5 minutes in nanoseconds. -/
def cacheTTLNanos : Int := 300000000000

/-- The cacheLayer built by NewCircuitBreakerRepository (empty entry, zeroed
fallback stats, "unavailable" pool status stamped with construction time). -/
def newCacheLayer (constructionTime : Int) : CacheLayer :=
  { mostFrequent := none
    lastRefresh := 0
    cacheTTL := cacheTTLNanos
    fallbackStats :=
      { TotalUniqueRequests := 0
        TotalRequests := 0
        AvgHitsPerUniqueRequest := 0
        MaxHits := 0
        FirstRequestTime := none
        LastRequestTime := none }
    fallbackPoolStats :=
      { TotalConnections := 0
        IdleConnections := 0
        ActiveConnections := 0
        ConstructingConnections := 0
        MaxConnections := 0
        AcquireCount := 0
        AverageAcquireDurationMs := 0
        Status := "unavailable"
        CollectedAt := constructionTime } }

/-- Counterexample to claim C5 as stated: an entry captured at time 0 is still
returned at exactly time TTL (the code expires strictly after the TTL, not at
it), contradicting absence at every time ≥ t0+TTL. -/
theorem C5_counterexample :
    cacheTTLNanos - (0 : Int) ≥ cacheTTLNanos ∧
    getMostFrequentCached
        (updateMostFrequent (newCacheLayer 0)
          (some { ID := 1, ParametersHash := "h", Parameters :=
                    { Int1 := 3, Int2 := 5, Limit := 15, Str1 := "fizz", Str2 := "buzz" },
                  Hits := 2, CreatedAt := 0, UpdatedAt := 0 }) 0)
        cacheTTLNanos ≠ none := by decide

/-- Claim C5, amended: a cache entry captured at time t0 with the 5-minute TTL
is returned at any query time with now - t0 ≤ TTL (inclusive at the boundary)
and treated as absent at any time with now - t0 > TTL, never served stale. -/
theorem C5_ttl_amended (c : CacheLayer) (entry : Option StatisticsEntry)
    (t0 now : Int) (httl : c.cacheTTL = cacheTTLNanos) :
    (now - t0 ≤ cacheTTLNanos →
      getMostFrequentCached (updateMostFrequent c entry t0) now = entry) ∧
    (cacheTTLNanos < now - t0 →
      getMostFrequentCached (updateMostFrequent c entry t0) now = none) := by
  unfold getMostFrequentCached updateMostFrequent
  constructor
  · intro h
    simp only
    rw [if_neg (by simp [httl]; omega)]
  · intro h
    simp only
    rw [if_pos (by simp [httl]; omega)]

/-- Witness for C5_ttl_amended: a concrete entry captured at time 0 is served
at 4 minutes and absent at 6 minutes. -/
theorem C5_witness :
    getMostFrequentCached
        (updateMostFrequent (newCacheLayer 0)
          (some { ID := 1, ParametersHash := "h", Parameters :=
                    { Int1 := 3, Int2 := 5, Limit := 15, Str1 := "fizz", Str2 := "buzz" },
                  Hits := 2, CreatedAt := 0, UpdatedAt := 0 }) 0)
        240000000000 =
      some { ID := 1, ParametersHash := "h", Parameters :=
               { Int1 := 3, Int2 := 5, Limit := 15, Str1 := "fizz", Str2 := "buzz" },
             Hits := 2, CreatedAt := 0, UpdatedAt := 0 } ∧
    getMostFrequentCached
        (updateMostFrequent (newCacheLayer 0)
          (some { ID := 1, ParametersHash := "h", Parameters :=
                    { Int1 := 3, Int2 := 5, Limit := 15, Str1 := "fizz", Str2 := "buzz" },
                  Hits := 2, CreatedAt := 0, UpdatedAt := 0 }) 0)
        360000000000 = none := by
  have h := C5_ttl_amended (newCacheLayer 0)
    (some { ID := 1, ParametersHash := "h", Parameters :=
              { Int1 := 3, Int2 := 5, Limit := 15, Str1 := "fizz", Str2 := "buzz" },
            Hits := 2, CreatedAt := 0, UpdatedAt := 0 }) 0 240000000000 rfl
  have h2 := C5_ttl_amended (newCacheLayer 0)
    (some { ID := 1, ParametersHash := "h", Parameters :=
              { Int1 := 3, Int2 := 5, Limit := 15, Str1 := "fizz", Str2 := "buzz" },
            Hits := 2, CreatedAt := 0, UpdatedAt := 0 }) 0 360000000000 rfl
  exact ⟨h.1 (by decide), h2.2 (by decide)⟩

/-! ## CircuitBreakerRepository (internal/data/statistics.go) -/

/-- The dynamic values carried through the breaker as Go interface values:
a *StatisticsEntry (possibly nil), a slice of them, a StatsSummary value, or
a *PoolStats (possibly nil). -/
inductive GoValue where
  | entry (e : Option StatisticsEntry)
  | entryList (l : List (Option StatisticsEntry))
  | stats (s : StatsSummary)
  | poolStats (p : Option PoolStats)
deriving DecidableEq

/-- Errors surfaced by the repository wrapper: a breaker error, or the
"unexpected result type" error from a failed type assertion. -/
inductive RepoErr (ε : Type) where
  | cb (e : CBErr ε)
  | unexpectedType
deriving DecidableEq

/-- CircuitBreakerRepository: the breaker plus its cache layer. -/
structure CircuitBreakerRepository where
  circuitBreaker : CircuitBreaker
  cache : CacheLayer
deriving DecidableEq

/-- NewCircuitBreakerRepository: default breaker config, health checker and
fallback configured, fresh cache layer. -/
def NewCircuitBreakerRepository (constructionTime : Int) : CircuitBreakerRepository :=
  { circuitBreaker :=
      { NewCircuitBreaker DefaultCircuitBreakerConfig with
          hasFallback := true
          hasHealthChecker := true }
    cache := newCacheLayer constructionTime }

/-- Result of one repository operation: the updated repository, the returned
value, and the returned error, mirroring the Go (value, error) pair. -/
structure RepoResult (β ε : Type) where
  repo : CircuitBreakerRepository
  value : β
  error : Option (RepoErr ε)
deriving DecidableEq

/-- The configured fallback function of the repository always returns the
cached most-frequent entry with a nil error. -/
def repoFallbackOutcome {ε : Type} (r : CircuitBreakerRepository) (now : Int) :
    Except ε GoValue :=
  .ok (.entry (getMostFrequentCached r.cache now))

/-- The inner breaker call made by Record / GetMostFrequent (the wrapped
operation returns a *StatisticsEntry); `db` is the outcome the backing store
would produce, `healthOk` the outcome of the configured health checker. -/
def entryCall {ε : Type} (r : CircuitBreakerRepository) (now : Int)
    (db : Except ε (Option StatisticsEntry)) (healthOk : Bool) : CallResult GoValue ε :=
  Call r.circuitBreaker
    { now := now
      fnOutcome := db.map GoValue.entry
      fallbackOutcome := repoFallbackOutcome r now
      healthOk := healthOk }

/-- The inner breaker call made by GetTopN. -/
def topNCall {ε : Type} (r : CircuitBreakerRepository) (now : Int)
    (db : Except ε (List (Option StatisticsEntry))) (healthOk : Bool) :
    CallResult GoValue ε :=
  Call r.circuitBreaker
    { now := now
      fnOutcome := db.map GoValue.entryList
      fallbackOutcome := repoFallbackOutcome r now
      healthOk := healthOk }

/-- The inner breaker call made by GetStats. -/
def statsCall {ε : Type} (r : CircuitBreakerRepository) (now : Int)
    (db : Except ε StatsSummary) (healthOk : Bool) : CallResult GoValue ε :=
  Call r.circuitBreaker
    { now := now
      fnOutcome := db.map GoValue.stats
      fallbackOutcome := repoFallbackOutcome r now
      healthOk := healthOk }

/-- The inner breaker call made by GetPoolStats. -/
def poolStatsCall {ε : Type} (r : CircuitBreakerRepository) (now : Int)
    (db : Except ε (Option PoolStats)) (healthOk : Bool) : CallResult GoValue ε :=
  Call r.circuitBreaker
    { now := now
      fnOutcome := db.map GoValue.poolStats
      fallbackOutcome := repoFallbackOutcome r now
      healthOk := healthOk }

/-- Record: on any breaker error return (nil, err) unchanged — no fallback is
consulted; on success update the cache with the new entry and return it. -/
def CircuitBreakerRepository.Record {ε : Type} (r : CircuitBreakerRepository) (now : Int)
    (db : Except ε (Option StatisticsEntry)) (healthOk : Bool) :
    RepoResult (Option StatisticsEntry) ε :=
  let c := entryCall r now db healthOk
  match c.error with
  | some e =>
      { repo := { r with circuitBreaker := c.breaker }, value := none, error := some (.cb e) }
  | none =>
      match c.value with
      | some (.entry entry) =>
          { repo := { circuitBreaker := c.breaker, cache := updateMostFrequent r.cache entry now }
            value := entry
            error := none }
      | _ =>
          { repo := { r with circuitBreaker := c.breaker }
            value := none
            error := some .unexpectedType }

/-- GetMostFrequent: on the fallback-used sentinel return the cached entry with
a nil error; on any other error return (nil, err); on success update the cache
and return the entry. -/
def CircuitBreakerRepository.GetMostFrequent {ε : Type} (r : CircuitBreakerRepository)
    (now : Int) (db : Except ε (Option StatisticsEntry)) (healthOk : Bool) :
    RepoResult (Option StatisticsEntry) ε :=
  let c := entryCall r now db healthOk
  match c.error with
  | some .circuitBreakerOpenWithFallback =>
      { repo := { r with circuitBreaker := c.breaker }
        value := getMostFrequentCached r.cache now
        error := none }
  | some e =>
      { repo := { r with circuitBreaker := c.breaker }, value := none, error := some (.cb e) }
  | none =>
      match c.value with
      | some (.entry entry) =>
          { repo := { circuitBreaker := c.breaker, cache := updateMostFrequent r.cache entry now }
            value := entry
            error := none }
      | _ =>
          { repo := { r with circuitBreaker := c.breaker }
            value := none
            error := some .unexpectedType }

/-- GetTopN: on the fallback-used sentinel return a one-element slice with the
cached entry (or an empty slice) and a nil error; value none models the Go nil
slice returned on the other error paths. -/
def CircuitBreakerRepository.GetTopN {ε : Type} (r : CircuitBreakerRepository) (now : Int)
    (db : Except ε (List (Option StatisticsEntry))) (healthOk : Bool) :
    RepoResult (Option (List (Option StatisticsEntry))) ε :=
  let c := topNCall r now db healthOk
  match c.error with
  | some .circuitBreakerOpenWithFallback =>
      { repo := { r with circuitBreaker := c.breaker }
        value :=
          match getMostFrequentCached r.cache now with
          | some cached => some [some cached]
          | none => some []
        error := none }
  | some e =>
      { repo := { r with circuitBreaker := c.breaker }, value := none, error := some (.cb e) }
  | none =>
      match c.value with
      | some (.entryList entries) =>
          { repo := { r with circuitBreaker := c.breaker }, value := some entries, error := none }
      | _ =>
          { repo := { r with circuitBreaker := c.breaker }
            value := none
            error := some .unexpectedType }

/-- GetStats: on the fallback-used sentinel return the fixed placeholder
summary with a nil error; other errors return the zero StatsSummary and the
error. -/
def CircuitBreakerRepository.GetStats {ε : Type} (r : CircuitBreakerRepository) (now : Int)
    (db : Except ε StatsSummary) (healthOk : Bool) : RepoResult StatsSummary ε :=
  let c := statsCall r now db healthOk
  match c.error with
  | some .circuitBreakerOpenWithFallback =>
      { repo := { r with circuitBreaker := c.breaker }
        value := getFallbackStats r.cache
        error := none }
  | some e =>
      { repo := { r with circuitBreaker := c.breaker }
        value :=
          { TotalUniqueRequests := 0, TotalRequests := 0, AvgHitsPerUniqueRequest := 0,
            MaxHits := 0, FirstRequestTime := none, LastRequestTime := none }
        error := some (.cb e) }
  | none =>
      match c.value with
      | some (.stats s) =>
          { repo := { r with circuitBreaker := c.breaker }, value := s, error := none }
      | _ =>
          { repo := { r with circuitBreaker := c.breaker }
            value :=
              { TotalUniqueRequests := 0, TotalRequests := 0, AvgHitsPerUniqueRequest := 0,
                MaxHits := 0, FirstRequestTime := none, LastRequestTime := none }
            error := some .unexpectedType }

/-- GetPoolStats: on the fallback-used sentinel return the placeholder pool
summary restamped with the current time and a nil error. -/
def CircuitBreakerRepository.GetPoolStats {ε : Type} (r : CircuitBreakerRepository)
    (now : Int) (db : Except ε (Option PoolStats)) (healthOk : Bool) :
    RepoResult (Option PoolStats) ε :=
  let c := poolStatsCall r now db healthOk
  match c.error with
  | some .circuitBreakerOpenWithFallback =>
      { repo := { r with circuitBreaker := c.breaker }
        value := some (getFallbackPoolStats r.cache now)
        error := none }
  | some e =>
      { repo := { r with circuitBreaker := c.breaker }, value := none, error := some (.cb e) }
  | none =>
      match c.value with
      | some (.poolStats p) =>
          { repo := { r with circuitBreaker := c.breaker }, value := p, error := none }
      | _ =>
          { repo := { r with circuitBreaker := c.breaker }
            value := none
            error := some .unexpectedType }

/-! ## Write path never fabricates success (claim C6) -/

/-- Claim C6: whenever the inner breaker call of Record does not succeed — in
particular when the breaker is open and the fallback produced a result, where
the call carries the fallback-used sentinel — Record discards any fallback
value and returns a nil entry together with a non-nil error. -/
theorem C6_record_never_fakes_success {ε : Type} (r : CircuitBreakerRepository) (now : Int)
    (db : Except ε (Option StatisticsEntry)) (healthOk : Bool) (e : CBErr ε)
    (h : (entryCall r now db healthOk).error = some e) :
    (r.Record now db healthOk).value = none ∧
    (r.Record now db healthOk).error = some (.cb e) := by
  unfold CircuitBreakerRepository.Record
  simp only [h]
  exact ⟨trivial, trivial⟩

/-- An open circuit-breaker repository whose breaker has a fallback and health
checker configured (as NewCircuitBreakerRepository installs), used by the
repository witnesses. -/
def openRepo : CircuitBreakerRepository :=
  { circuitBreaker :=
      { config := DefaultCircuitBreakerConfig, state := .CircuitOpen, failures := 5,
        successes := 0, lastFailTime := 0, hasFallback := true, hasHealthChecker := true }
    cache := newCacheLayer 0 }

/-- Witness for C6: with the breaker open before the recovery timeout the
fallback is used, yet Record returns no value and the non-nil sentinel-carrying
error. -/
theorem C6_witness :
    (openRepo.Record 1000 (.ok none : Except Unit (Option StatisticsEntry)) false).value =
      none ∧
    (openRepo.Record 1000 (.ok none : Except Unit (Option StatisticsEntry)) false).error =
      some (.cb .circuitBreakerOpenWithFallback) := by
  exact C6_record_never_fakes_success openRepo 1000 (.ok none) false
    .circuitBreakerOpenWithFallback (by decide)

/-! ## Read paths mask the fallback signal (claim C7) -/

/-- Claim C7: for each read operation, when the inner breaker call yields the
fallback-used sentinel, the operation returns the cached or placeholder value
with a nil error — the sentinel is never surfaced to the caller. -/
theorem C7_reads_mask_fallback_signal {ε : Type} (r : CircuitBreakerRepository) (now : Int)
    (healthOk : Bool) (dbE : Except ε (Option StatisticsEntry))
    (dbL : Except ε (List (Option StatisticsEntry))) (dbS : Except ε StatsSummary)
    (dbP : Except ε (Option PoolStats))
    (hE : (entryCall r now dbE healthOk).error = some .circuitBreakerOpenWithFallback)
    (hL : (topNCall r now dbL healthOk).error = some .circuitBreakerOpenWithFallback)
    (hS : (statsCall r now dbS healthOk).error = some .circuitBreakerOpenWithFallback)
    (hP : (poolStatsCall r now dbP healthOk).error = some .circuitBreakerOpenWithFallback) :
    ((r.GetMostFrequent now dbE healthOk).value = getMostFrequentCached r.cache now ∧
      (r.GetMostFrequent now dbE healthOk).error = none) ∧
    ((r.GetTopN now dbL healthOk).value =
        (match getMostFrequentCached r.cache now with
          | some cached => some [some cached]
          | none => some []) ∧
      (r.GetTopN now dbL healthOk).error = none) ∧
    ((r.GetStats now dbS healthOk).value = getFallbackStats r.cache ∧
      (r.GetStats now dbS healthOk).error = none) ∧
    ((r.GetPoolStats now dbP healthOk).value = some (getFallbackPoolStats r.cache now) ∧
      (r.GetPoolStats now dbP healthOk).error = none) := by
  refine ⟨?_, ?_, ?_, ?_⟩
  · unfold CircuitBreakerRepository.GetMostFrequent
    simp only [hE]
    exact ⟨trivial, trivial⟩
  · unfold CircuitBreakerRepository.GetTopN
    simp only [hL]
    exact ⟨trivial, trivial⟩
  · unfold CircuitBreakerRepository.GetStats
    simp only [hS]
    exact ⟨trivial, trivial⟩
  · unfold CircuitBreakerRepository.GetPoolStats
    simp only [hP]
    exact ⟨trivial, trivial⟩

/-- Witness for C7 on the open repository: all four reads return the degraded
values with nil errors. -/
theorem C7_witness :
    ((openRepo.GetMostFrequent 1000 (.ok none : Except Unit (Option StatisticsEntry))
        false).error = none) ∧
    ((openRepo.GetTopN 1000 (.ok [] : Except Unit (List (Option StatisticsEntry)))
        false).error = none) ∧
    ((openRepo.GetStats 1000
        (.error () : Except Unit StatsSummary) false).value =
      getFallbackStats openRepo.cache ∧
      (openRepo.GetStats 1000 (.error () : Except Unit StatsSummary) false).error = none) ∧
    ((openRepo.GetPoolStats 1000 (.ok none : Except Unit (Option PoolStats)) false).value =
      some (getFallbackPoolStats openRepo.cache 1000)) := by
  have h := C7_reads_mask_fallback_signal openRepo 1000 false
    (.ok none) (.ok []) (.error ()) (.ok none)
    (by decide) (by decide) (by decide) (by decide)
  exact ⟨h.1.2, h.2.1.2, ⟨h.2.2.1.1, h.2.2.1.2⟩, h.2.2.2.1⟩

/-! ## Fallback read of an empty or expired cache (claim C10) -/

/-- Claim C10: when GetMostFrequent serves the fallback path (breaker open
before the recovery deadline, fallback configured) and the cache holds nothing
valid — expired or never populated — it returns a nil entry together with a
nil error, indistinguishable from a successful read of an empty store. -/
theorem C10_empty_fallback_is_silent {ε : Type} (r : CircuitBreakerRepository) (now : Int)
    (db : Except ε (Option StatisticsEntry)) (healthOk : Bool)
    (hs : r.circuitBreaker.state = .CircuitOpen)
    (ht : now - r.circuitBreaker.lastFailTime < r.circuitBreaker.config.RecoveryTimeout)
    (hf : r.circuitBreaker.hasFallback = true)
    (hc : getMostFrequentCached r.cache now = none) :
    (r.GetMostFrequent now db healthOk).value = none ∧
    (r.GetMostFrequent now db healthOk).error = none := by
  have hcall : (entryCall r now db healthOk).error = some .circuitBreakerOpenWithFallback := by
    unfold entryCall
    rw [Call, hs, callOpen_eq, if_neg (not_le.mpr ht)]
    unfold callOpenFallback
    rw [hf]
    simp [repoFallbackOutcome]
  unfold CircuitBreakerRepository.GetMostFrequent
  simp only [hcall]
  exact ⟨hc, trivial⟩

/-- Witness for C10: the open repository with a never-populated cache returns
(nil, nil) from GetMostFrequent. -/
theorem C10_witness :
    (openRepo.GetMostFrequent 1000 (.ok none : Except Unit (Option StatisticsEntry))
        false).value = none ∧
    (openRepo.GetMostFrequent 1000 (.ok none : Except Unit (Option StatisticsEntry))
        false).error = none := by
  exact C10_empty_fallback_is_silent openRepo 1000 (.ok none) false
    rfl (by decide) rfl (by decide)

/-! ## Per-IP rate limiter (cmd/api/middleware.go) -/

/-- Modelled from the spec: the token bucket of the vendored rate-limiting
library (golang.org/x/time/rate.Limiter, not part of this repository) — a
bounded number of tokens refilled at a fixed per-second rate, consumed one per
allowed action.  Tokens are exact rationals, times Int nanoseconds. -/
structure RateLimiter where
  limitPerSec : ℚ
  burst : Int
  tokens : ℚ
  lastUpdate : Int
deriving DecidableEq

/-- Modelled from the spec: a fresh bucket starts full at burst capacity. -/
def RateLimiter.NewLimiter (r : ℚ) (b : Int) (now : Int) : RateLimiter :=
  { limitPerSec := r, burst := b, tokens := (b : ℚ), lastUpdate := now }

/-- Modelled from the spec: refill up to burst for the elapsed time, then
consume a token when at least one is available. -/
def RateLimiter.Allow (l : RateLimiter) (now : Int) : Bool × RateLimiter :=
  let refilled : ℚ :=
    min (l.burst : ℚ) (l.tokens + l.limitPerSec * ((now - l.lastUpdate : Int) : ℚ) / 1000000000)
  if 1 ≤ refilled then
    (true, { l with tokens := refilled - 1, lastUpdate := now })
  else
    (false, { l with tokens := refilled, lastUpdate := now })

/-- ipLimiter: a bucket plus the last-seen time for one client identity. -/
structure IpLimiter where
  limiter : RateLimiter
  lastSeen : Int
deriving DecidableEq

/-- rateLimiterMap: per-IP limiters (association list standing for the Go map,
one binding per key) with the configured rate and burst. -/
structure RateLimiterMap where
  limiters : List (String × IpLimiter)
  rps : ℚ
  burst : Int
deriving DecidableEq

/-- newRateLimiterMap: empty map with the given rate and burst. -/
def newRateLimiterMap (rps : ℚ) (burst : Int) : RateLimiterMap :=
  { limiters := [], rps := rps, burst := burst }

/-- Replace the binding of a key that is already present. -/
def updateEntry : List (String × IpLimiter) → String → IpLimiter → List (String × IpLimiter)
  | [], _, _ => []
  | (k, v) :: rest, key, nv =>
      if k = key then (k, nv) :: rest else (k, v) :: updateEntry rest key nv

/-- getLimiter: return the limiter for the IP, lazily creating a fresh full
bucket on first request, and refresh the entry's last-seen time. -/
def getLimiter (rlm : RateLimiterMap) (ip : String) (now : Int) :
    RateLimiter × RateLimiterMap :=
  match rlm.limiters.lookup ip with
  | some entry =>
      (entry.limiter,
        { rlm with limiters := updateEntry rlm.limiters ip { entry with lastSeen := now } })
  | none =>
      let fresh : IpLimiter :=
        { limiter := RateLimiter.NewLimiter rlm.rps rlm.burst now, lastSeen := now }
      (fresh.limiter, { rlm with limiters := (ip, fresh) :: rlm.limiters })

/-- The rateLimit middleware step for one request: fetch (or create) the IP's
limiter, consume a token from that bucket only, and store the mutated bucket
back (the Go code mutates the shared *rate.Limiter in place). -/
def allowRequest (rlm : RateLimiterMap) (ip : String) (now : Int) : Bool × RateLimiterMap :=
  let p := getLimiter rlm ip now
  let a := p.1.Allow now
  (a.1, { p.2 with limiters := updateEntry p.2.limiters ip { limiter := a.2, lastSeen := now } })

/-- cleanupOldEntries: drop every entry last seen strictly before now - maxAge,
returning how many were dropped. -/
def cleanupOldEntries (rlm : RateLimiterMap) (maxAge : Int) (now : Int) :
    Int × RateLimiterMap :=
  let remaining := rlm.limiters.filter fun kv => !decide (kv.2.lastSeen < now - maxAge)
  (((rlm.limiters.length : Int) - (remaining.length : Int)),
    { rlm with limiters := remaining })

/-- getStats: tracked identity count, configured rate, configured burst. -/
def getStats (rlm : RateLimiterMap) : Int × ℚ × Int :=
  ((rlm.limiters.length : Int), rlm.rps, rlm.burst)

theorem lookup_updateEntry_ne (l : List (String × IpLimiter)) (a b : String) (v : IpLimiter)
    (h : a ≠ b) : (updateEntry l a v).lookup b = l.lookup b := by
  induction l with
  | nil => rfl
  | cons kv rest ih =>
      cases kv with
      | mk k v2 =>
          rw [updateEntry]
          by_cases hk : k = a
          · rw [if_pos hk]
            subst hk
            have hba : (b == k) = false := beq_eq_false_iff_ne.mpr fun hc => h hc.symm
            simp only [List.lookup, hba]
          · rw [if_neg hk]
            simp only [List.lookup]
            cases hbk : b == k
            · exact ih
            · rfl

theorem lookup_allowRequest_ne (rlm : RateLimiterMap) (a b : String) (now : Int)
    (h : a ≠ b) :
    ((allowRequest rlm a now).2).limiters.lookup b = rlm.limiters.lookup b := by
  unfold allowRequest getLimiter
  cases hl : rlm.limiters.lookup a
  · simp only [hl]
    rw [lookup_updateEntry_ne _ _ _ _ h]
    have hba : (b == a) = false := beq_eq_false_iff_ne.mpr fun hc => h hc.symm
    simp only [List.lookup, hba]
  · simp only [hl]
    rw [lookup_updateEntry_ne _ _ _ _ h, lookup_updateEntry_ne _ _ _ _ h]

/-- Claim C8: for distinct client identities A and B, any sequence of requests
from identities other than B — including ones that consume or exhaust A's
bucket — leaves B's entry (its bucket and tokens) exactly as it was; each
identity's limiter is an independent lazily-created token bucket. -/
theorem C8_limiters_independent (rlm : RateLimiterMap) (B : String)
    (ops : List (String × Int)) (h : ∀ op ∈ ops, op.1 ≠ B) :
    ((ops.foldl (fun m op => (allowRequest m op.1 op.2).2) rlm).limiters.lookup B) =
      rlm.limiters.lookup B := by
  induction ops generalizing rlm with
  | nil => rfl
  | cons op rest ih =>
      rw [List.foldl_cons]
      rw [ih _ fun j hj => h j (List.mem_cons_of_mem op hj)]
      exact lookup_allowRequest_ne rlm op.1 B op.2 (h op (List.mem_cons_self op rest))

/-- Witness for C8: three requests from "A" (exhausting its burst-2 bucket)
leave "B"'s previously created bucket untouched. -/
theorem C8_witness :
    (([("A", (0 : Int)), ("A", 0), ("A", 0)].foldl
        (fun m op => (allowRequest m op.1 op.2).2)
        ((allowRequest (newRateLimiterMap 1 2) "B" 0).2)).limiters.lookup "B") =
      ((allowRequest (newRateLimiterMap 1 2) "B" 0).2).limiters.lookup "B" := by
  exact C8_limiters_independent ((allowRequest (newRateLimiterMap 1 2) "B" 0).2) "B"
    [("A", 0), ("A", 0), ("A", 0)] (by decide)

/-! ## Background eviction loop (initializeRateLimiter in the server main) -/

/-- The events the eviction goroutine's select statement can observe: its
single case receives from the cleanup ticker.  The source provides no stop
channel, no context and no other case. -/
inductive EvictionEvent where
  | tick (now : Int)
deriving DecidableEq

/-- The eviction maxAge: entries idle over 1 hour are removed. -/
def evictionMaxAge : Int := 3600000000000

/-- The eviction goroutine: the rate limiter map it sweeps and whether the
loop has exited.  The source loop is `for { select { case <-ticker.C: ... } }`
with no return, break or stop signal, so no step ever sets `stopped`. -/
structure EvictionLoop where
  rlm : RateLimiterMap
  stopped : Bool
deriving DecidableEq

/-- One iteration of the eviction loop body. -/
def evictionLoopStep (l : EvictionLoop) (ev : EvictionEvent) : EvictionLoop :=
  match ev with
  | .tick now => { l with rlm := (cleanupOldEntries l.rlm evictionMaxAge now).2 }

/-- The eviction loop over a sequence of observable events. -/
def runEvictionLoop (l : EvictionLoop) (evs : List EvictionEvent) : EvictionLoop :=
  evs.foldl evictionLoopStep l

/-- Claim C9 concerns Shutdown/WaitForShutdown operations; the source defines
none, and this theorem shows the embedded eviction loop can never terminate:
no sequence of observable events (there are only ticker ticks) ever stops a
running loop, so nothing can signal it to stop, let alone await it. -/
theorem C9_eviction_loop_never_stops (l : EvictionLoop) (evs : List EvictionEvent)
    (h : l.stopped = false) : (runEvictionLoop l evs).stopped = false := by
  induction evs generalizing l with
  | nil => exact h
  | cons ev rest ih =>
      rw [runEvictionLoop, List.foldl_cons]
      exact ih _ (by cases ev with | tick now => exact h)

/-- Witness for C9_eviction_loop_never_stops on a concrete started loop. -/
theorem C9_witness :
    (runEvictionLoop
        { rlm := (allowRequest (newRateLimiterMap 2 4) "A" 0).2, stopped := false }
        [.tick 60000000000, .tick 120000000000, .tick 7200000000000]).stopped = false := by
  exact C9_eviction_loop_never_stops _ _ rfl

end FizzBuzz
